import Mathlib

/-!
Verification of the transistor output-characteristic analysis macros
(`src/macro/fit_lineare.C` and `src/macro/fit._lineare.C`).

The numeric pipeline is: load measured samples (x, y, σx, σy), restrict to a
fit domain, perform a weighted linear least-squares fit of y = a + b·x, and
compute derived quantities (Early voltage −a/b with propagated error, and
the current gain beta between two fitted curves).

Machine doubles are modelled as real numbers; the structure of every
computation follows the C++ source expression by expression.
-/

namespace Transistor

/-- A measured sample, four columns in source order `x y ex ey`
(Vce, Ic, errVce, errIc) as read by `TGraphErrors(file, "%lg %lg %lg %lg")`. -/
structure Sample where
  x : ℝ
  y : ℝ
  ex : ℝ
  ey : ℝ

/-- Result of a linear fit of `[0] + [1]*x`: intercept `a` with standard
error `sa` (ROOT `GetParameter(0)` / `GetParError(0)`) and slope `b` with
standard error `sb` (`GetParameter(1)` / `GetParError(1)`). -/
structure FitResult where
  a : ℝ
  sa : ℝ
  b : ℝ
  sb : ℝ

/-- The error taxonomy of the analysis (spec section 7). -/
inductive AnalysisError where
  | malformedRecordError
  | insufficientDataError
  | divideByZeroError
deriving DecidableEq, Repr

/-- Modelled from the spec: the range restriction applied by ROOT's fit
option `"R"` (`TF1` range `fit_min .. fit_max`) is performed inside the
external fitting library, not in this repository's sources.  Following
spec section 4.1, `filterRange` keeps the samples with
`lowX ≤ x ≤ highX` (inclusive), order preserved. -/
noncomputable def filterRange (dataset : List Sample) (lowX highX : ℝ) : List Sample :=
  dataset.filter (fun s => decide (lowX ≤ s.x ∧ s.x ≤ highX))

/-- Sum of weights `w = 1/σy²` over a dataset (spec glossary: weighted
least squares with `wᵢ = 1/σyᵢ²`). -/
noncomputable def sumW (dataset : List Sample) : ℝ :=
  (dataset.map (fun s => 1 / s.ey ^ 2)).sum

/-- Sum of `w·x` over a dataset. -/
noncomputable def sumWX (dataset : List Sample) : ℝ :=
  (dataset.map (fun s => (1 / s.ey ^ 2) * s.x)).sum

/-- Sum of `w·y` over a dataset. -/
noncomputable def sumWY (dataset : List Sample) : ℝ :=
  (dataset.map (fun s => (1 / s.ey ^ 2) * s.y)).sum

/-- Sum of `w·x²` over a dataset. -/
noncomputable def sumWXX (dataset : List Sample) : ℝ :=
  (dataset.map (fun s => (1 / s.ey ^ 2) * s.x ^ 2)).sum

/-- Sum of `w·x·y` over a dataset. -/
noncomputable def sumWXY (dataset : List Sample) : ℝ :=
  (dataset.map (fun s => (1 / s.ey ^ 2) * s.x * s.y)).sum

/-- Determinant of the weighted normal equations. -/
noncomputable def fitDelta (dataset : List Sample) : ℝ :=
  sumW dataset * sumWXX dataset - sumWX dataset ^ 2

/-- Modelled from the spec: the weighted least-squares solver behind the
`g->Fit(f, "R")` calls is ROOT's `TGraphErrors::Fit`, external to this
repository.  Following spec section 4.1, the solution is the standard
closed form of the normal equations for y = a + b·x with per-point weight
`1/σy²`: a = (Sxx·Sy − Sx·Sxy)/Δ, b = (S·Sxy − Sx·Sy)/Δ,
σa = sqrt(Sxx/Δ), σb = sqrt(S/Δ), with Δ = S·Sxx − Sx². -/
noncomputable def solveWLS (dataset : List Sample) : FitResult :=
  { a := (sumWXX dataset * sumWY dataset - sumWX dataset * sumWXY dataset) / fitDelta dataset
    sa := Real.sqrt (sumWXX dataset / fitDelta dataset)
    b := (sumW dataset * sumWXY dataset - sumWX dataset * sumWY dataset) / fitDelta dataset
    sb := Real.sqrt (sumW dataset / fitDelta dataset) }

/-- Modelled from the spec: `fitLinear` (spec section 4.1) is realised by
the external ROOT fit; it signals `InsufficientDataError` when fewer than
2 points remain after filtering, otherwise returns the weighted
least-squares solution. -/
noncomputable def fitLinear (dataset : List Sample) : Except AnalysisError FitResult :=
  if dataset.length < 2 then .error .insufficientDataError
  else .ok (solveWLS dataset)

/-- Evaluation of the fitted line `"[0] + [1]*x"` at a point, as done by
`TF1::Eval` (`fit_lineare.C` lines 183 and 184). -/
noncomputable def evalLine (f : FitResult) (x : ℝ) : ℝ :=
  f.a + f.b * x

/-- The Early-voltage computation of `fit_lineare.C` lines 115 and 119:
`VA = -a / b` and
`err_VA = VA * sqrt((sa/a)^2 + (sb/b)^2)` (no absolute value is taken).
This is the code's realisation of `deriveInterceptRatio` (spec 4.1). -/
noncomputable def deriveInterceptRatio (f : FitResult) : ℝ × ℝ :=
  let value := -f.a / f.b
  let err := value * Real.sqrt ((f.sa / f.a) ^ 2 + (f.sb / f.b) ^ 2)
  (value, err)

/-- The code's Early-voltage computation, lifted into the error monad of
the spec's taxonomy: lines 115 to 124 of `fit_lineare.C` test nothing and
divide unconditionally, so the lifted computation always returns `ok`. -/
noncomputable def deriveInterceptRatioE (f : FitResult) :
    Except AnalysisError (ℝ × ℝ) :=
  .ok (deriveInterceptRatio f)

/-- Modelled from the spec (section 4.1), for comparison with the code:
`deriveInterceptRatio(fit)` computes value = −a/b,
relErr = sqrt((σa/a)² + (σb/b)²), error = |value| · relErr, and fails with
`DivideByZeroError` if b = 0 or a = 0. -/
noncomputable def deriveInterceptRatioSpec (f : FitResult) :
    Except AnalysisError (ℝ × ℝ) :=
  if f.b = 0 ∨ f.a = 0 then .error .divideByZeroError
  else
    let value := -f.a / f.b
    let relErr := Real.sqrt ((f.sa / f.a) ^ 2 + (f.sb / f.b) ^ 2)
    .ok (value, |value| * relErr)

/-- The gain computation between two fitted curves (spec 4.1
`computeGainBetweenFits`), following `fit_lineare.C` lines 180 to 193 with
the evaluation point and the two base currents as parameters:
y is evaluated on each fitted line at `xEval`, and the result is
`|Δy| / Δbase`.  No uncertainty accompanies the result. -/
noncomputable def computeGainBetweenFits (fitLow fitHigh : FitResult)
    (xEval baseLow baseHigh : ℝ) : ℝ :=
  let yLow := evalLine fitLow xEval
  let yHigh := evalLine fitHigh xEval
  let deltaBase := baseHigh - baseLow
  let deltaY := yHigh - yLow
  |deltaY| / deltaBase

namespace FitLineare

/-- Lower edge of the fit region of `fit_lineare.C` (line 75). -/
noncomputable def fit_min : ℝ := 1

/-- Upper edge of the fit region of `fit_lineare.C` (line 76). -/
noncomputable def fit_max : ℝ := 3.5

/-- Evaluation point for beta, `fit_lineare.C` line 180. -/
noncomputable def V_target : ℝ := -3.0

/-- Base current of the 50 uA dataset in mA, `fit_lineare.C` line 187. -/
noncomputable def Ib_50 : ℝ := 0.05

/-- Base current of the 100 uA dataset in mA, `fit_lineare.C` line 188. -/
noncomputable def Ib_100 : ℝ := 0.1

/-- `delta_Ib = Ib_100 - Ib_50`, `fit_lineare.C` line 189. -/
noncomputable def delta_Ib : ℝ := Ib_100 - Ib_50

/-- The beta computation of `fit_lineare.C` lines 180 to 193: the two
fitted lines are evaluated at `V_target`, and
`beta = |delta_Ic| / delta_Ib`. -/
noncomputable def beta (f1 f2 : FitResult) : ℝ :=
  let Ic_50_val := evalLine f1 V_target
  let Ic_100_val := evalLine f2 V_target
  let delta_Ic := Ic_100_val - Ic_50_val
  |delta_Ic| / delta_Ib

/-- The dataset-loading guard and the two fits of `fit_lineare.C`:
lines 44 to 49 return early (producing nothing at all) when either input
graph is empty; otherwise both datasets are fitted over
`[fit_min, fit_max]` (lines 79 to 104).  The pair of fit outcomes is the
reported result of the run. -/
noncomputable def analisi_bjt (d50 d100 : List Sample) :
    Option (Except AnalysisError FitResult × Except AnalysisError FitResult) :=
  if d50.length = 0 ∨ d100.length = 0 then none
  else
    some (fitLinear (filterRange d50 fit_min fit_max),
          fitLinear (filterRange d100 fit_min fit_max))

end FitLineare

namespace FitLineareAlt

/-- Evaluation point for beta, `fit._lineare.C` line 129. -/
noncomputable def V_target : ℝ := -3.0

/-- Base current of the 100 uA dataset in mA, `fit._lineare.C` line 136. -/
noncomputable def Ib_100 : ℝ := 0.1

/-- Base current of the 200 uA dataset in mA, `fit._lineare.C` line 137. -/
noncomputable def Ib_200 : ℝ := 0.2

/-- `delta_Ib = Ib_200 - Ib_100`, `fit._lineare.C` line 138. -/
noncomputable def delta_Ib : ℝ := Ib_200 - Ib_100

/-- The beta computation of `fit._lineare.C` lines 129 to 143: the two
fitted lines are evaluated at `V_target`, and
`beta = |delta_Ic| / delta_Ib`. -/
noncomputable def beta (f1 f2 : FitResult) : ℝ :=
  let Ic_100_val := evalLine f1 V_target
  let Ic_200_val := evalLine f2 V_target
  let delta_Ic := Ic_200_val - Ic_100_val
  |delta_Ic| / delta_Ib

end FitLineareAlt

/-- Replacing the x-errors of every sample leaves the weight sum
unchanged: the weights read only σy. -/
theorem sumW_map_ex (L : List Sample) (e : Sample → ℝ) :
    sumW (L.map fun s => ⟨s.x, s.y, e s, s.ey⟩) = sumW L := by
  simp [sumW, List.map_map, Function.comp_def]

/-- Replacing the x-errors leaves Σ w·x unchanged. -/
theorem sumWX_map_ex (L : List Sample) (e : Sample → ℝ) :
    sumWX (L.map fun s => ⟨s.x, s.y, e s, s.ey⟩) = sumWX L := by
  simp [sumWX, List.map_map, Function.comp_def]

/-- Replacing the x-errors leaves Σ w·y unchanged. -/
theorem sumWY_map_ex (L : List Sample) (e : Sample → ℝ) :
    sumWY (L.map fun s => ⟨s.x, s.y, e s, s.ey⟩) = sumWY L := by
  simp [sumWY, List.map_map, Function.comp_def]

/-- Replacing the x-errors leaves Σ w·x² unchanged. -/
theorem sumWXX_map_ex (L : List Sample) (e : Sample → ℝ) :
    sumWXX (L.map fun s => ⟨s.x, s.y, e s, s.ey⟩) = sumWXX L := by
  simp [sumWXX, List.map_map, Function.comp_def]

/-- Replacing the x-errors leaves Σ w·x·y unchanged. -/
theorem sumWXY_map_ex (L : List Sample) (e : Sample → ℝ) :
    sumWXY (L.map fun s => ⟨s.x, s.y, e s, s.ey⟩) = sumWXY L := by
  simp [sumWXY, List.map_map, Function.comp_def]

/-- The weighted least-squares solution ignores the per-point x-errors. -/
theorem solveWLS_map_ex (L : List Sample) (e : Sample → ℝ) :
    solveWLS (L.map fun s => ⟨s.x, s.y, e s, s.ey⟩) = solveWLS L := by
  simp only [solveWLS, fitDelta, sumW_map_ex, sumWX_map_ex, sumWY_map_ex,
    sumWXX_map_ex, sumWXY_map_ex]

/-- The whole fit ignores the per-point x-errors. -/
theorem fitLinear_map_ex (L : List Sample) (e : Sample → ℝ) :
    fitLinear (L.map fun s => ⟨s.x, s.y, e s, s.ey⟩) = fitLinear L := by
  simp only [fitLinear, List.length_map, solveWLS_map_ex]

/-- On a dataset lying exactly on y = 2 + 3·x, Σ w·y = 2·Σw + 3·Σ w·x. -/
theorem sumWY_of_line (F : List Sample) (hline : ∀ s ∈ F, s.y = 2 + 3 * s.x) :
    sumWY F = 2 * sumW F + 3 * sumWX F := by
  induction F with
  | nil => simp [sumWY, sumW, sumWX]
  | cons s t ih =>
    have hs := hline s (by simp)
    have ht := ih fun u hu => hline u (by simp [hu])
    simp only [sumWY, sumW, sumWX, List.map_cons, List.sum_cons] at *
    rw [hs, ht]
    ring

/-- On a dataset lying exactly on y = 2 + 3·x,
Σ w·x·y = 2·Σ w·x + 3·Σ w·x². -/
theorem sumWXY_of_line (F : List Sample) (hline : ∀ s ∈ F, s.y = 2 + 3 * s.x) :
    sumWXY F = 2 * sumWX F + 3 * sumWXX F := by
  induction F with
  | nil => simp [sumWXY, sumWX, sumWXX]
  | cons s t ih =>
    have hs := hline s (by simp)
    have ht := ih fun u hu => hline u (by simp [hu])
    simp only [sumWXY, sumWX, sumWXX, List.map_cons, List.sum_cons] at *
    rw [hs, ht]
    ring

/-- Claim C1 counterexample: at the fit a = 2, σa = 0, b = 2, σb = 2 (both
a and b nonzero) the code's propagated error is
(−2/2) · sqrt((0/2)² + (2/2)²) = −1, which is negative: the claim that the
returned error equals |value| · relErr and is always nonnegative fails. -/
theorem C1_counterexample : (deriveInterceptRatio ⟨2, 0, 2, 2⟩).2 < 0 := by
  show (-2 / 2 : ℝ) * Real.sqrt ((0 / 2) ^ 2 + (2 / 2) ^ 2) < 0
  norm_num [Real.sqrt_one]

/-- Claim C1 (amended): for every fit with a ≠ 0 and b ≠ 0 the code
returns value = −a/b and error = value · relErr with
relErr = sqrt((σa/a)² + (σb/b)²); this equals |value| · relErr exactly when
−a/b ≥ 0, and it is negative whenever −a/b < 0 and relErr > 0. -/
theorem C1_deriveInterceptRatio_signed_error (f : FitResult)
    (ha : f.a ≠ 0) (hb : f.b ≠ 0) :
    (deriveInterceptRatio f).1 = -f.a / f.b ∧
    (deriveInterceptRatio f).2 =
      (-f.a / f.b) * Real.sqrt ((f.sa / f.a) ^ 2 + (f.sb / f.b) ^ 2) ∧
    (0 ≤ -f.a / f.b →
      (deriveInterceptRatio f).2 =
        |(-f.a / f.b)| * Real.sqrt ((f.sa / f.a) ^ 2 + (f.sb / f.b) ^ 2)) ∧
    (-f.a / f.b < 0 → 0 < Real.sqrt ((f.sa / f.a) ^ 2 + (f.sb / f.b) ^ 2) →
      (deriveInterceptRatio f).2 < 0) := by
  refine ⟨rfl, rfl, ?_, ?_⟩
  · intro h
    show (-f.a / f.b) * Real.sqrt ((f.sa / f.a) ^ 2 + (f.sb / f.b) ^ 2) =
      |(-f.a / f.b)| * Real.sqrt ((f.sa / f.a) ^ 2 + (f.sb / f.b) ^ 2)
    rw [abs_of_nonneg h]
  · intro h hs
    show (-f.a / f.b) * Real.sqrt ((f.sa / f.a) ^ 2 + (f.sb / f.b) ^ 2) < 0
    exact mul_neg_of_neg_of_pos h hs

/-- Claim C1 witness: the amended statement evaluated at
a = 2, σa = 0, b = 2, σb = 2. -/
theorem C1_deriveInterceptRatio_signed_error_witness :
    (2 : ℝ) ≠ 0 ∧ (deriveInterceptRatio ⟨2, 0, 2, 2⟩).1 = -2 / 2 :=
  ⟨by norm_num,
   (C1_deriveInterceptRatio_signed_error ⟨2, 0, 2, 2⟩ (by norm_num)
     (by norm_num)).1⟩

/-- Claim C2 counterexample: at the fit a = 1, σa = 1, b = 0, σb = 1
(slope zero) the code does not signal `DivideByZeroError`: it divides
unconditionally and returns a plain pair. -/
theorem C2_counterexample :
    deriveInterceptRatioE ⟨1, 1, 0, 1⟩ ≠
      Except.error AnalysisError.divideByZeroError := by
  simp [deriveInterceptRatioE]

/-- Claim C2 (amended): for every fit with b = 0 or a = 0, the spec-level
operation signals `DivideByZeroError`, but the code performs no zero test
and returns the unconditionally computed pair, signalling nothing. -/
theorem C2_no_zero_check (f : FitResult) (h : f.b = 0 ∨ f.a = 0) :
    deriveInterceptRatioSpec f = Except.error AnalysisError.divideByZeroError ∧
    deriveInterceptRatioE f = Except.ok (deriveInterceptRatio f) := by
  refine ⟨?_, rfl⟩
  simp only [deriveInterceptRatioSpec]
  rw [if_pos h]

/-- Claim C2 witness: the amended statement evaluated at
a = 1, σa = 1, b = 0, σb = 1. -/
theorem C2_no_zero_check_witness :
    ((0 : ℝ) = 0 ∨ (1 : ℝ) = 0) ∧
    deriveInterceptRatioSpec ⟨1, 1, 0, 1⟩ =
      Except.error AnalysisError.divideByZeroError :=
  ⟨Or.inl rfl, (C2_no_zero_check ⟨1, 1, 0, 1⟩ (Or.inl rfl)).1⟩

/-- Claim C8: for all fits, evaluation point and distinct base values, the
gain is |(a_high + b_high·xEval) − (a_low + b_low·xEval)| / (baseHigh −
baseLow), and it depends only on the intercepts and slopes — the parameter
uncertainties σa, σb of either fit never influence it (no uncertainty is
propagated). -/
theorem C8_computeGainBetweenFits_formula (fitLow fitHigh : FitResult)
    (xEval baseLow baseHigh : ℝ) (h : baseLow ≠ baseHigh) :
    computeGainBetweenFits fitLow fitHigh xEval baseLow baseHigh =
      |(fitHigh.a + fitHigh.b * xEval) - (fitLow.a + fitLow.b * xEval)| /
        (baseHigh - baseLow) ∧
    (∀ g1 g2 : FitResult, g1.a = fitLow.a → g1.b = fitLow.b →
      g2.a = fitHigh.a → g2.b = fitHigh.b →
      computeGainBetweenFits g1 g2 xEval baseLow baseHigh =
        computeGainBetweenFits fitLow fitHigh xEval baseLow baseHigh) := by
  refine ⟨rfl, ?_⟩
  intro g1 g2 h1 h2 h3 h4
  simp only [computeGainBetweenFits, evalLine, h1, h2, h3, h4]

/-- Claim C8 witness: the gain formula evaluated at fitLow = (0,0,0,0),
fitHigh = (1,0,0,0), xEval = 0, baseLow = 0, baseHigh = 1. -/
theorem C8_computeGainBetweenFits_formula_witness :
    (0 : ℝ) ≠ 1 ∧
    computeGainBetweenFits ⟨0, 0, 0, 0⟩ ⟨1, 0, 0, 0⟩ 0 0 1 =
      |((1 : ℝ) + 0 * 0) - (0 + 0 * 0)| / (1 - 0) :=
  ⟨by norm_num,
   (C8_computeGainBetweenFits_formula ⟨0, 0, 0, 0⟩ ⟨1, 0, 0, 0⟩ 0 0 1
     (by norm_num)).1⟩

/-- Claim C9: in `fit_lineare.C` the beta denominator `delta_Ib` is the
fixed constant 0.1 − 0.05 = 1/20, which is positive (so the division is
well defined for every pair of fits), and the resulting beta is always
nonnegative. -/
theorem C9_beta_denominator_positive :
    FitLineare.delta_Ib = 1 / 20 ∧ FitLineare.delta_Ib ≠ 0 ∧
    0 < FitLineare.delta_Ib ∧
    ∀ f1 f2 : FitResult, 0 ≤ FitLineare.beta f1 f2 := by
  have hval : FitLineare.delta_Ib = 1 / 20 := by
    norm_num [FitLineare.delta_Ib, FitLineare.Ib_100, FitLineare.Ib_50]
  refine ⟨hval, by rw [hval]; norm_num, by rw [hval]; norm_num, ?_⟩
  intro f1 f2
  have hpos : 0 < FitLineare.delta_Ib := by rw [hval]; norm_num
  exact div_nonneg (abs_nonneg _) (le_of_lt hpos)

/-- Claim C10 counterexample: with identical fitted parameters
f1 = (0,0,0,0), f2 = (1,0,0,0) fed to both macros, `fit_lineare.C` yields
beta = |1|/0.05 = 20 while `fit._lineare.C` yields beta = |1|/0.1 = 10:
the two beta values are not equal. -/
theorem C10_counterexample :
    FitLineare.beta ⟨0, 0, 0, 0⟩ ⟨1, 0, 0, 0⟩ = 20 ∧
    FitLineareAlt.beta ⟨0, 0, 0, 0⟩ ⟨1, 0, 0, 0⟩ = 10 ∧
    FitLineare.beta ⟨0, 0, 0, 0⟩ ⟨1, 0, 0, 0⟩ ≠
      FitLineareAlt.beta ⟨0, 0, 0, 0⟩ ⟨1, 0, 0, 0⟩ := by
  have h1 : FitLineare.beta ⟨0, 0, 0, 0⟩ ⟨1, 0, 0, 0⟩ = 20 := by
    norm_num [FitLineare.beta, FitLineare.delta_Ib, FitLineare.Ib_100,
      FitLineare.Ib_50, FitLineare.V_target, evalLine]
  have h2 : FitLineareAlt.beta ⟨0, 0, 0, 0⟩ ⟨1, 0, 0, 0⟩ = 10 := by
    norm_num [FitLineareAlt.beta, FitLineareAlt.delta_Ib, FitLineareAlt.Ib_200,
      FitLineareAlt.Ib_100, FitLineareAlt.V_target, evalLine]
  exact ⟨h1, h2, by rw [h1, h2]; norm_num⟩

/-- Claim C10 (amended): both macros compute beta by the same expression —
each instantiates the generic `computeGainBetweenFits` at the same
evaluation point V_target = −3.0 with its own pair of fixed base currents
(0.05 and 0.1 mA in `fit_lineare.C`; 0.1 and 0.2 mA in `fit._lineare.C`) —
so with equal fitted parameters the two beta values agree only up to their
distinct base-current differences, not as equal numbers. -/
theorem C10_beta_same_expression (f1 f2 : FitResult) :
    FitLineare.beta f1 f2 =
      computeGainBetweenFits f1 f2 FitLineare.V_target
        FitLineare.Ib_50 FitLineare.Ib_100 ∧
    FitLineareAlt.beta f1 f2 =
      computeGainBetweenFits f1 f2 FitLineareAlt.V_target
        FitLineareAlt.Ib_100 FitLineareAlt.Ib_200 ∧
    FitLineare.V_target = FitLineareAlt.V_target :=
  ⟨rfl, rfl, rfl⟩

/-- Claim C3: on any dataset with at least 2 in-range samples (and a
nondegenerate design, Δ ≠ 0), `fitLinear` succeeds and returns the
closed-form weighted least-squares solution: the intercept and slope
satisfy the weighted normal equations with per-point weight 1/σy², the
standard errors are sqrt(Sxx/Δ) and sqrt(S/Δ), and the per-point x-errors
have no influence on the result. -/
theorem C3_fitLinear_normal_equations (D : List Sample) (lo hi : ℝ)
    (h2 : 2 ≤ (filterRange D lo hi).length)
    (hD : fitDelta (filterRange D lo hi) ≠ 0) :
    fitLinear (filterRange D lo hi) =
      Except.ok (solveWLS (filterRange D lo hi)) ∧
    sumW (filterRange D lo hi) * (solveWLS (filterRange D lo hi)).a +
      sumWX (filterRange D lo hi) * (solveWLS (filterRange D lo hi)).b =
      sumWY (filterRange D lo hi) ∧
    sumWX (filterRange D lo hi) * (solveWLS (filterRange D lo hi)).a +
      sumWXX (filterRange D lo hi) * (solveWLS (filterRange D lo hi)).b =
      sumWXY (filterRange D lo hi) ∧
    (solveWLS (filterRange D lo hi)).sa =
      Real.sqrt (sumWXX (filterRange D lo hi) / fitDelta (filterRange D lo hi)) ∧
    (solveWLS (filterRange D lo hi)).sb =
      Real.sqrt (sumW (filterRange D lo hi) / fitDelta (filterRange D lo hi)) ∧
    ∀ e : Sample → ℝ,
      fitLinear ((filterRange D lo hi).map fun s => ⟨s.x, s.y, e s, s.ey⟩) =
        fitLinear (filterRange D lo hi) := by
  set F := filterRange D lo hi with hF
  have hΔ : sumW F * sumWXX F - sumWX F ^ 2 ≠ 0 := hD
  refine ⟨?_, ?_, ?_, rfl, rfl, ?_⟩
  · simp only [fitLinear]
    rw [if_neg (not_lt.mpr h2)]
  · show sumW F * ((sumWXX F * sumWY F - sumWX F * sumWXY F) / fitDelta F) +
      sumWX F * ((sumW F * sumWXY F - sumWX F * sumWY F) / fitDelta F) = sumWY F
    rw [show fitDelta F = sumW F * sumWXX F - sumWX F ^ 2 from rfl]
    field_simp
    ring
  · show sumWX F * ((sumWXX F * sumWY F - sumWX F * sumWXY F) / fitDelta F) +
      sumWXX F * ((sumW F * sumWXY F - sumWX F * sumWY F) / fitDelta F) = sumWXY F
    rw [show fitDelta F = sumW F * sumWXX F - sumWX F ^ 2 from rfl]
    field_simp
    ring
  · intro e
    exact fitLinear_map_ex F e

/-- Claim C3 witness: the fit on the two in-range samples
(0,1,1,1), (1,2,1,1) over the domain [0,4] satisfies the first weighted
normal equation. -/
theorem C3_fitLinear_normal_equations_witness :
    2 ≤ (filterRange [⟨0, 1, 1, 1⟩, ⟨1, 2, 1, 1⟩] 0 4).length ∧
    fitDelta (filterRange [⟨0, 1, 1, 1⟩, ⟨1, 2, 1, 1⟩] 0 4) ≠ 0 ∧
    sumW (filterRange [⟨0, 1, 1, 1⟩, ⟨1, 2, 1, 1⟩] 0 4) *
        (solveWLS (filterRange [⟨0, 1, 1, 1⟩, ⟨1, 2, 1, 1⟩] 0 4)).a +
      sumWX (filterRange [⟨0, 1, 1, 1⟩, ⟨1, 2, 1, 1⟩] 0 4) *
        (solveWLS (filterRange [⟨0, 1, 1, 1⟩, ⟨1, 2, 1, 1⟩] 0 4)).b =
      sumWY (filterRange [⟨0, 1, 1, 1⟩, ⟨1, 2, 1, 1⟩] 0 4) := by
  have hL : filterRange [⟨0, 1, 1, 1⟩, ⟨1, 2, 1, 1⟩] 0 4 =
      [⟨0, 1, 1, 1⟩, ⟨1, 2, 1, 1⟩] := by
    norm_num [filterRange, List.filter_cons, decide_eq_true_eq]
  have h2 : 2 ≤ (filterRange [⟨0, 1, 1, 1⟩, ⟨1, 2, 1, 1⟩] 0 4).length := by
    rw [hL]; simp
  have hD : fitDelta (filterRange [⟨0, 1, 1, 1⟩, ⟨1, 2, 1, 1⟩] 0 4) ≠ 0 := by
    rw [hL]; norm_num [fitDelta, sumW, sumWX, sumWXX]
  exact ⟨h2, hD,
    (C3_fitLinear_normal_equations [⟨0, 1, 1, 1⟩, ⟨1, 2, 1, 1⟩] 0 4 h2 hD).2.1⟩

/-- Claim C4: whenever the filtered domain holds fewer than 2 samples, the
fit is not attempted and `InsufficientDataError` is signalled. -/
theorem C4_insufficient_data (D : List Sample) (lo hi : ℝ)
    (h : (filterRange D lo hi).length < 2) :
    fitLinear (filterRange D lo hi) =
      Except.error AnalysisError.insufficientDataError := by
  simp only [fitLinear]
  rw [if_pos h]

/-- Claim C4 witness: a one-sample dataset filtered to the domain [0,4]
keeps one point and the fit signals `InsufficientDataError`. -/
theorem C4_insufficient_data_witness :
    (filterRange [⟨0, 1, 1, 1⟩] 0 4).length < 2 ∧
    fitLinear (filterRange [⟨0, 1, 1, 1⟩] 0 4) =
      Except.error AnalysisError.insufficientDataError := by
  have h : (filterRange [(⟨0, 1, 1, 1⟩ : Sample)] 0 4).length < 2 := by
    norm_num [filterRange, List.filter_cons, decide_eq_true_eq]
  exact ⟨h, C4_insufficient_data [⟨0, 1, 1, 1⟩] 0 4 h⟩

/-- Claim C5 counterexample: with an empty 50 uA dataset and a perfectly
fittable 100 uA dataset (two in-range points), `fit_lineare.C` aborts the
whole run (lines 44 to 49) and reports nothing — even though the 100 uA
fit on its own would succeed.  The sibling dataset's result is lost, so
one dataset's failure is not isolated. -/
theorem C5_counterexample :
    FitLineare.analisi_bjt [] [⟨1, 1, 0, 1⟩, ⟨2, 2, 0, 1⟩] = none ∧
    fitLinear (filterRange [⟨1, 1, 0, 1⟩, ⟨2, 2, 0, 1⟩]
        FitLineare.fit_min FitLineare.fit_max) =
      Except.ok (solveWLS [⟨1, 1, 0, 1⟩, ⟨2, 2, 0, 1⟩]) := by
  constructor
  · simp [FitLineare.analisi_bjt]
  · have hL : filterRange [⟨1, 1, 0, 1⟩, ⟨2, 2, 0, 1⟩]
        FitLineare.fit_min FitLineare.fit_max =
        [⟨1, 1, 0, 1⟩, ⟨2, 2, 0, 1⟩] := by
      norm_num [filterRange, FitLineare.fit_min, FitLineare.fit_max,
        List.filter_cons, decide_eq_true_eq]
    rw [hL]
    simp only [fitLinear]
    rw [if_neg (by simp)]

/-- Claim C5 (amended): in `fit_lineare.C` the emptiness of either input
dataset aborts the whole run — nothing is computed or reported for the
other dataset; only when both datasets are nonempty is each dataset fitted
independently over the fit domain. -/
theorem C5_empty_input_aborts_run (d50 d100 : List Sample) :
    (d50 = [] ∨ d100 = [] → FitLineare.analisi_bjt d50 d100 = none) ∧
    (d50 ≠ [] → d100 ≠ [] →
      FitLineare.analisi_bjt d50 d100 =
        some (fitLinear (filterRange d50 FitLineare.fit_min FitLineare.fit_max),
          fitLinear (filterRange d100 FitLineare.fit_min FitLineare.fit_max))) := by
  constructor
  · intro h
    rcases h with h | h <;> simp [FitLineare.analisi_bjt, h]
  · intro h1 h2
    simp only [FitLineare.analisi_bjt]
    rw [if_neg]
    intro hor
    rcases hor with hor | hor
    · exact h1 (List.length_eq_zero.mp hor)
    · exact h2 (List.length_eq_zero.mp hor)

/-- Claim C5 witness: the amended statement evaluated on an empty 50 uA
dataset (run aborted) and on two nonempty datasets (both fits reported). -/
theorem C5_empty_input_aborts_run_witness :
    FitLineare.analisi_bjt [] [⟨1, 1, 1, 1⟩] = none ∧
    FitLineare.analisi_bjt [⟨1, 1, 0, 1⟩] [⟨2, 2, 0, 1⟩] =
      some (fitLinear (filterRange [⟨1, 1, 0, 1⟩]
              FitLineare.fit_min FitLineare.fit_max),
        fitLinear (filterRange [⟨2, 2, 0, 1⟩]
              FitLineare.fit_min FitLineare.fit_max)) :=
  ⟨(C5_empty_input_aborts_run [] [⟨1, 1, 1, 1⟩]).1 (Or.inl rfl),
   (C5_empty_input_aborts_run [⟨1, 1, 0, 1⟩] [⟨2, 2, 0, 1⟩]).2
     (by simp) (by simp)⟩

/-- Claim C6 counterexample: the two-sample dataset (0, 2, 0, 1/10),
(1, 5, 0, 1/10) lies exactly on y = 2 + 3x with σy = 1/10 > 0, yet the
fit returns σa = 1/10 and σb = sqrt(1/50) — not 0: the standard errors of
a weighted least-squares fit do not vanish on noiseless data. -/
theorem C6_counterexample :
    fitLinear (filterRange [⟨0, 2, 0, 1 / 10⟩, ⟨1, 5, 0, 1 / 10⟩] 0 4) =
      Except.ok { a := 2, sa := 1 / 10, b := 3, sb := Real.sqrt (1 / 50) } ∧
    (1 : ℝ) / 10 ≠ 0 := by
  refine ⟨?_, by norm_num⟩
  have hL : filterRange [⟨0, 2, 0, 1 / 10⟩, ⟨1, 5, 0, 1 / 10⟩] 0 4 =
      [⟨0, 2, 0, 1 / 10⟩, ⟨1, 5, 0, 1 / 10⟩] := by
    norm_num [filterRange, List.filter_cons, decide_eq_true_eq]
  rw [hL]
  have hS : sumW [⟨0, 2, 0, 1 / 10⟩, ⟨1, 5, 0, 1 / 10⟩] = 200 := by
    norm_num [sumW]
  have hSx : sumWX [⟨0, 2, 0, 1 / 10⟩, ⟨1, 5, 0, 1 / 10⟩] = 100 := by
    norm_num [sumWX]
  have hSy : sumWY [⟨0, 2, 0, 1 / 10⟩, ⟨1, 5, 0, 1 / 10⟩] = 700 := by
    norm_num [sumWY]
  have hSxx : sumWXX [⟨0, 2, 0, 1 / 10⟩, ⟨1, 5, 0, 1 / 10⟩] = 100 := by
    norm_num [sumWXX]
  have hSxy : sumWXY [⟨0, 2, 0, 1 / 10⟩, ⟨1, 5, 0, 1 / 10⟩] = 500 := by
    norm_num [sumWXY]
  have hDel : fitDelta [⟨0, 2, 0, 1 / 10⟩, ⟨1, 5, 0, 1 / 10⟩] = 10000 := by
    simp only [fitDelta]
    rw [hS, hSxx, hSx]
    norm_num
  simp only [fitLinear]
  rw [if_neg (by simp)]
  simp only [solveWLS, hS, hSx, hSy, hSxx, hSxy, hDel]
  have hsa : Real.sqrt ((100 : ℝ) / 10000) = 1 / 10 := by
    rw [show (100 / 10000 : ℝ) = (1 / 10) ^ 2 by norm_num,
      Real.sqrt_sq (by norm_num)]
  have hsb : Real.sqrt ((200 : ℝ) / 10000) = Real.sqrt (1 / 50) := by
    norm_num
  rw [hsa, hsb]
  norm_num

/-- Claim C6 (amended): on every dataset lying exactly on y = 2 + 3x with
nonzero per-point σy (and at least 2 samples, Δ ≠ 0), the fit returns
a = 2 and b = 3 exactly, but the standard errors are σa = sqrt(Sxx/Δ) and
σb = sqrt(S/Δ): they depend only on the x-positions and the σy weights,
not on the residuals, and are not zero in general. -/
theorem C6_exact_line_fit (F : List Sample) (h2 : 2 ≤ F.length)
    (hey : ∀ s ∈ F, s.ey ≠ 0) (hD : fitDelta F ≠ 0)
    (hline : ∀ s ∈ F, s.y = 2 + 3 * s.x) :
    fitLinear F = Except.ok
      { a := 2, sa := Real.sqrt (sumWXX F / fitDelta F),
        b := 3, sb := Real.sqrt (sumW F / fitDelta F) } := by
  have hy := sumWY_of_line F hline
  have hxy := sumWXY_of_line F hline
  have hΔ : sumW F * sumWXX F - sumWX F ^ 2 ≠ 0 := hD
  have ha : (sumWXX F * sumWY F - sumWX F * sumWXY F) / fitDelta F = 2 := by
    rw [hy, hxy, show fitDelta F = sumW F * sumWXX F - sumWX F ^ 2 from rfl,
      div_eq_iff hΔ]
    ring
  have hb : (sumW F * sumWXY F - sumWX F * sumWY F) / fitDelta F = 3 := by
    rw [hy, hxy, show fitDelta F = sumW F * sumWXX F - sumWX F ^ 2 from rfl,
      div_eq_iff hΔ]
    ring
  simp only [fitLinear]
  rw [if_neg (not_lt.mpr h2)]
  simp only [solveWLS, ha, hb]

/-- Claim C6 witness: the amended statement evaluated on the noiseless
two-sample dataset (0, 2, 0, 1/10), (1, 5, 0, 1/10). -/
theorem C6_exact_line_fit_witness :
    2 ≤ ([⟨0, 2, 0, 1 / 10⟩, ⟨1, 5, 0, 1 / 10⟩] : List Sample).length ∧
    fitLinear [⟨0, 2, 0, 1 / 10⟩, ⟨1, 5, 0, 1 / 10⟩] = Except.ok
      { a := 2,
        sa := Real.sqrt (sumWXX [⟨0, 2, 0, 1 / 10⟩, ⟨1, 5, 0, 1 / 10⟩] /
          fitDelta [⟨0, 2, 0, 1 / 10⟩, ⟨1, 5, 0, 1 / 10⟩]),
        b := 3,
        sb := Real.sqrt (sumW [⟨0, 2, 0, 1 / 10⟩, ⟨1, 5, 0, 1 / 10⟩] /
          fitDelta [⟨0, 2, 0, 1 / 10⟩, ⟨1, 5, 0, 1 / 10⟩]) } := by
  refine ⟨by simp, ?_⟩
  refine C6_exact_line_fit _ (by simp) ?_ ?_ ?_
  · intro s hs
    rcases List.mem_cons.mp hs with rfl | hs
    · norm_num
    · rcases List.mem_cons.mp hs with rfl | hs
      · norm_num
      · cases hs
  · norm_num [fitDelta, sumW, sumWX, sumWXX]
  · intro s hs
    rcases List.mem_cons.mp hs with rfl | hs
    · norm_num
    · rcases List.mem_cons.mp hs with rfl | hs
      · norm_num
      · cases hs

/-- Claim C7: for every dataset and bounds lo ≤ hi, the range filter keeps
exactly the samples with lo ≤ x ≤ hi (a sublist of the input, so order is
preserved), and it is idempotent. -/
theorem C7_filterRange_exact (D : List Sample) (lo hi : ℝ) (h : lo ≤ hi) :
    (filterRange D lo hi).Sublist D ∧
    (∀ s : Sample, s ∈ filterRange D lo hi ↔ s ∈ D ∧ lo ≤ s.x ∧ s.x ≤ hi) ∧
    filterRange (filterRange D lo hi) lo hi = filterRange D lo hi := by
  refine ⟨List.filter_sublist D, ?_, ?_⟩
  · intro s
    simp [filterRange, List.mem_filter]
  · simp only [filterRange]
    apply List.filter_eq_self.mpr
    intro a ha
    exact (List.mem_filter.mp ha).2

/-- Claim C7 witness: idempotence of the filter on a one-sample dataset
with bounds 0 ≤ 4. -/
theorem C7_filterRange_exact_witness :
    (0 : ℝ) ≤ 4 ∧
    filterRange (filterRange [⟨1, 2, 3, 4⟩] 0 4) 0 4 =
      filterRange [⟨1, 2, 3, 4⟩] 0 4 :=
  ⟨by norm_num, (C7_filterRange_exact [⟨1, 2, 3, 4⟩] 0 4 (by norm_num)).2.2⟩

end Transistor
